import Mathlib

/-!
# Verification of the UC3MConsulting enterprise / CIF validation module

Shallow embedding of `src/UC3MConsulting/EnterpriseManager.py` and
`src/UC3MConsulting/EnterpriseRequest.py`.

Python strings are modelled as Lean `String` (a list of characters).
The Python string primitives are modelled as follows.  `str.upper` and
`str.lower` act on the basic-latin letters (their behaviour on the CIF
alphabet).  `str.isdigit` is true on every character of Unicode class
digit: the decimal digits (class Nd, which carry a decimal value and
which `int(·)` converts) and the digit characters without a decimal
value (superscripts and subscripts such as U+00B2, on which `int(·)`
raises `ValueError`).  Both classes are modelled over their ASCII
members plus documented non-ASCII ranges (Arabic-Indic, extended
Arabic-Indic, Devanagari and fullwidth decimal digits; the
superscript/subscript digit characters); all remaining code points are
treated as non-digits.  `int(c)` on a single character is fallible in
Python; the fallible variant is modelled with `Option`, `none` marking
a raised `ValueError`.
-/

/-- Model of Python `str.upper()` on a single character, on the ASCII
range: a lowercase basic-latin letter is mapped 32 code points down,
every other character is left unchanged. -/
def pyUpper (c : Char) : Char :=
  if 97 ≤ c.toNat ∧ c.toNat ≤ 122 then Char.ofNat (c.toNat - 32) else c

/-- Model of Python `str.lower()` on a single character, on the ASCII
range (used only to state case-insensitivity claims). -/
def pyLower (c : Char) : Char :=
  if 65 ≤ c.toNat ∧ c.toNat ≤ 90 then Char.ofNat (c.toNat + 32) else c

/-- Decimal value of a character, as Python `int(·)` consults it: the
Unicode decimal digits (class Nd) carry a decimal value and `int`
converts them; every other character makes `int` raise.  Modelled over
the ASCII digits 0-9 plus the documented non-ASCII decimal-digit
ranges (Arabic-Indic U+0660-0669, extended Arabic-Indic U+06F0-06F9,
Devanagari U+0966-096F, fullwidth U+FF10-FF19); remaining code points
are treated as carrying no decimal value. -/
def pyDecimalValue (c : Char) : Option Nat :=
  if 48 ≤ c.toNat ∧ c.toNat ≤ 57 then some (c.toNat - 48)
  else if 1632 ≤ c.toNat ∧ c.toNat ≤ 1641 then some (c.toNat - 1632)
  else if 1776 ≤ c.toNat ∧ c.toNat ≤ 1785 then some (c.toNat - 1776)
  else if 2406 ≤ c.toNat ∧ c.toNat ≤ 2415 then some (c.toNat - 2406)
  else if 65296 ≤ c.toNat ∧ c.toNat ≤ 65305 then some (c.toNat - 65296)
  else none

/-- Digit characters without a decimal value: accepted by Python
`str.isdigit()` but rejected by `int(·)` with a `ValueError`.
Modelled as the superscript digits U+00B9, U+00B2, U+00B3, U+2070,
U+2074-2079 and the subscript digits U+2080-2089. -/
def pyDigitNoValue (c : Char) : Bool :=
  decide (c.toNat = 185) || decide (c.toNat = 178) || decide (c.toNat = 179) ||
  decide (c.toNat = 8304) || (decide (8308 ≤ c.toNat) && decide (c.toNat ≤ 8313)) ||
  (decide (8320 ≤ c.toNat) && decide (c.toNat ≤ 8329))

/-- Model of Python `str.isdigit()` on a single character: true on the
decimal digits and on the digit characters without a decimal value. -/
def pyIsDigit (c : Char) : Bool :=
  (pyDecimalValue c).isSome || pyDigitNoValue c

/-- The plain decimal digits 0-9 (the decimal-digit characters the
claims quantify over). -/
def asciiDigit (c : Char) : Bool :=
  decide (48 ≤ c.toNat) && decide (c.toNat ≤ 57)

/-- Model of Python `str.isdigit()` on a whole string: false on the
empty string, otherwise every character must pass the
single-character test. -/
def pyStrIsDigit (s : List Char) : Bool :=
  !s.isEmpty && s.all pyIsDigit

/-- Total model of Python `int(c)` on a single character: its decimal
value where the conversion succeeds (an arbitrary default elsewhere —
the fallible variant `pyIntE` marks those characters as raising). -/
def pyInt (c : Char) : Nat :=
  (pyDecimalValue c).getD 0

/-- Fallible model of Python `int(c)` on a single character: `int`
succeeds exactly on the characters with a decimal value and raises
`ValueError` (modelled as `none`) on every other character, including
the digit characters without a decimal value that pass `isdigit`. -/
def pyIntE (c : Char) : Option Nat :=
  pyDecimalValue c

/-- Step 2 of the source's checksum: double a digit and, when the
result has two decimal digits, add those digits
(`multiplied = multiplied // 10 + multiplied % 10`). -/
def doubleReduce (d : Nat) : Nat :=
  let m := d * 2
  if m > 9 then m / 10 + m % 10 else m

/-- Steps 1-4 of `ValidateCIF`: from the seven body digits
(0-indexed body positions 0..6), the even-position sum (positions
1, 3, 5), the doubled odd-position sum (positions 0, 2, 4, 6), the
total, its unit digit, and the resulting base digit. -/
def baseDigitOf (n0 n1 n2 n3 n4 n5 n6 : Nat) : Nat :=
  let evenSum := n1 + n3 + n5
  let oddSum := doubleReduce n0 + doubleReduce n2 + doubleReduce n4 + doubleReduce n6
  let totalSum := evenSum + oddSum
  let unitDigit := totalSum % 10
  if unitDigit = 0 then 0 else 10 - unitDigit

/-- The fixed mapping table used for organization letters K, P, Q, S
(`mapping = {0: 'J', 1: 'A', ..., 9: 'I'}`); `mapping.get` yields
`none` outside the table, like the Python `dict.get` default. -/
def kpqsMapping (n : Nat) : Option Char :=
  match n with
  | 0 => some 'J'
  | 1 => some 'A'
  | 2 => some 'B'
  | 3 => some 'C'
  | 4 => some 'D'
  | 5 => some 'E'
  | 6 => some 'F'
  | 7 => some 'G'
  | 8 => some 'H'
  | 9 => some 'I'
  | _ => none

/-- Body of `EnterpriseManager.ValidateCIF`, on the character list of
the input string.  For a string, `not cif or len(cif) != 9` rejects
everything but exactly nine characters, which the nine-element pattern
captures; then the source uppercases characters 0 and 8, checks that
characters 1-7 are all digits, computes the base digit, and compares
the control character by organization letter. -/
def validateChars : List Char → Bool
  | [c0, b0, b1, b2, b3, b4, b5, b6, c8] =>
      let letter := pyUpper c0
      let control := pyUpper c8
      if pyStrIsDigit [b0, b1, b2, b3, b4, b5, b6] then
        let baseDigit := baseDigitOf (pyInt b0) (pyInt b1) (pyInt b2)
          (pyInt b3) (pyInt b4) (pyInt b5) (pyInt b6)
        if letter = 'A' ∨ letter = 'B' ∨ letter = 'E' ∨ letter = 'H' then
          decide (control = Nat.digitChar baseDigit)
        else if letter = 'K' ∨ letter = 'P' ∨ letter = 'Q' ∨ letter = 'S' then
          decide (some control = kpqsMapping baseDigit)
        else
          false
      else
        false
  | _ => false

/-- `EnterpriseManager.ValidateCIF` of the source. -/
def ValidateCIF (cif : String) : Bool :=
  validateChars cif.data

/-- Variant of `validateChars` in which each `int(·)` conversion is
fallible, exactly where the source calls `int`; `none` marks a raised
`ValueError`.  Used to settle whether the validator can raise. -/
def validateCharsE : List Char → Option Bool
  | [c0, b0, b1, b2, b3, b4, b5, b6, c8] =>
      let letter := pyUpper c0
      let control := pyUpper c8
      if pyStrIsDigit [b0, b1, b2, b3, b4, b5, b6] then
        match pyIntE b0, pyIntE b1, pyIntE b2, pyIntE b3,
              pyIntE b4, pyIntE b5, pyIntE b6 with
        | some n0, some n1, some n2, some n3, some n4, some n5, some n6 =>
            let baseDigit := baseDigitOf n0 n1 n2 n3 n4 n5 n6
            if letter = 'A' ∨ letter = 'B' ∨ letter = 'E' ∨ letter = 'H' then
              some (decide (control = Nat.digitChar baseDigit))
            else if letter = 'K' ∨ letter = 'P' ∨ letter = 'Q' ∨ letter = 'S' then
              some (decide (some control = kpqsMapping baseDigit))
            else
              some false
        | _, _, _, _, _, _, _ => none
      else
        some false
  | _ => some false

/-- Fallible variant of `ValidateCIF`; `none` marks a raised error. -/
def ValidateCIFE (cif : String) : Option Bool :=
  validateCharsE cif.data

/-- Record constructed by `EnterpriseRequest.__init__`: the constructor
arguments are, in order, the CIF, the phone number and the enterprise
name (stored in the private attributes `__cif`, `__phone`,
`__enterprise_name`). -/
structure EnterpriseRequest where
  cif : String
  phone : String
  e_name : String
deriving DecidableEq

/-- Property accessor `EnterpriseRequest.enterprise_cif`. -/
def EnterpriseRequest.enterprise_cif (r : EnterpriseRequest) : String :=
  r.cif

/-- Property accessor `EnterpriseRequest.phone_number`. -/
def EnterpriseRequest.phone_number (r : EnterpriseRequest) : String :=
  r.phone

/-- Property accessor `EnterpriseRequest.enterprise_name`. -/
def EnterpriseRequest.enterprise_name (r : EnterpriseRequest) : String :=
  r.e_name

/-- Error outcome of `ReadProductCodeFromJSON`: either an
`EnterpriseManagementException` raised by the source with the given
message, or an exception of the host language that none of the
source's `except` clauses catches (identified by its Python type
name). -/
inductive LoadError where
  | enterpriseManagementException (msg : String)
  | uncaught (excName : String)
deriving DecidableEq

/-- Outcome of the external collaborators `open` + `json.load` on the
given path, which is the input `ReadProductCodeFromJSON` dispatches
on.  `fileNotFound`: `open` raises `FileNotFoundError`.  `unreadable`:
the path resolves to a file that exists but cannot be read, so `open`
raises `PermissionError` (a distinct `OSError` subclass that the
source's `except FileNotFoundError` clause does not catch).
`badJson`: the file is readable but `json.load` raises
`JSONDecodeError`.  `parsed`: `json.load` returns a JSON object,
modelled as an association list from keys to string values. -/
inductive LoadInput where
  | fileNotFound
  | unreadable
  | badJson
  | parsed (data : List (String × String))
deriving DecidableEq

/-- `EnterpriseManager.ReadProductCodeFromJSON` of the source, as a
function of the outcome of the `open` + `json.load` collaborators:
the first `try` block maps `FileNotFoundError` to
`EnterpriseManagementException("Wrong file or file path")` and
`JSONDecodeError` to `...("Wrong JSON Format")` and lets any other
exception propagate; the second `try` block looks up the keys `cif`,
`phone`, `enterprise_name` and maps a `KeyError` to
`...("Invalid JSON Key")`; then the record is constructed, the CIF is
validated, and an invalid CIF raises `...("Invalid CIF format")`,
otherwise the constructed record is returned. -/
def ReadProductCodeFromJSON (fi : LoadInput) : Except LoadError EnterpriseRequest :=
  match fi with
  | .fileNotFound =>
      .error (.enterpriseManagementException "Wrong file or file path")
  | .unreadable =>
      .error (.uncaught "PermissionError")
  | .badJson =>
      .error (.enterpriseManagementException "Wrong JSON Format")
  | .parsed data =>
      match data.lookup "cif" with
      | none => .error (.enterpriseManagementException "Invalid JSON Key")
      | some t_cif =>
        match data.lookup "phone" with
        | none => .error (.enterpriseManagementException "Invalid JSON Key")
        | some t_phone =>
          match data.lookup "enterprise_name" with
          | none => .error (.enterpriseManagementException "Invalid JSON Key")
          | some e_name =>
            let req := EnterpriseRequest.mk t_cif t_phone e_name
            if ValidateCIF t_cif then
              .ok req
            else
              .error (.enterpriseManagementException "Invalid CIF format")

/-- Relation used to state case-insensitivity: `c'` is either `c`
itself or the opposite-case ASCII letter equivalent of `c` (the
uppercased form of a lowercase letter, or the lowercased form of an
uppercase letter). -/
def caseVariant (c c' : Char) : Prop :=
  c' = c
  ∨ (97 ≤ c.toNat ∧ c.toNat ≤ 122 ∧ c' = pyUpper c)
  ∨ (65 ≤ c.toNat ∧ c.toNat ≤ 90 ∧ c' = pyLower c)

instance (c c' : Char) : Decidable (caseVariant c c') := by
  unfold caseVariant
  infer_instance

/-! ## Character-level lemmas -/

theorem toNat_ofNat_of_lt {n : Nat} (h : n < 55296) : (Char.ofNat n).toNat = n := by
  have hv : n.isValidChar := Or.inl h
  rw [Char.ofNat, dif_pos hv]
  rfl

theorem toNat_digitChar {n : Nat} (h : n ≤ 9) : (Nat.digitChar n).toNat = 48 + n := by
  interval_cases n <;> decide

theorem asciiDigit_pyIsDigit {c : Char} (h : asciiDigit c = true) :
    pyIsDigit c = true := by
  have h2 : 48 ≤ c.toNat ∧ c.toNat ≤ 57 := by simpa [asciiDigit] using h
  simp [pyIsDigit, pyDecimalValue, if_pos h2]

theorem pyUpper_digitChar {n : Nat} (h : n ≤ 9) :
    pyUpper (Nat.digitChar n) = Nat.digitChar n := by
  interval_cases n <;> decide

theorem pyUpper_eq_digitChar_iff {c : Char} {n : Nat} (h : n ≤ 9) :
    pyUpper c = Nat.digitChar n ↔ c = Nat.digitChar n := by
  unfold pyUpper
  by_cases hc : 97 ≤ c.toNat ∧ c.toNat ≤ 122
  · rw [if_pos hc]
    have hdn : (Nat.digitChar n).toNat = 48 + n := toNat_digitChar h
    constructor
    · intro h'
      exfalso
      have := congrArg Char.toNat h'
      rw [toNat_ofNat_of_lt (by omega)] at this
      omega
    · intro h'
      exfalso
      have := congrArg Char.toNat h'
      omega
  · rw [if_neg hc]

theorem pyUpper_of_lower_range {c : Char} (h : 97 ≤ c.toNat ∧ c.toNat ≤ 122) :
    pyUpper c = Char.ofNat (c.toNat - 32) := by
  unfold pyUpper
  rw [if_pos h]

theorem pyUpper_of_not_lower_range {c : Char} (h : ¬(97 ≤ c.toNat ∧ c.toNat ≤ 122)) :
    pyUpper c = c := by
  unfold pyUpper
  rw [if_neg h]

theorem pyLower_of_upper_range {c : Char} (h : 65 ≤ c.toNat ∧ c.toNat ≤ 90) :
    pyLower c = Char.ofNat (c.toNat + 32) := by
  unfold pyLower
  rw [if_pos h]

theorem pyLower_of_not_upper_range {c : Char} (h : ¬(65 ≤ c.toNat ∧ c.toNat ≤ 90)) :
    pyLower c = c := by
  unfold pyLower
  rw [if_neg h]

theorem pyUpper_pyUpper (c : Char) : pyUpper (pyUpper c) = pyUpper c := by
  by_cases hc : 97 ≤ c.toNat ∧ c.toNat ≤ 122
  · have h2 : (pyUpper c).toNat = c.toNat - 32 := by
      rw [pyUpper_of_lower_range hc, toNat_ofNat_of_lt (by omega)]
    exact pyUpper_of_not_lower_range (by omega)
  · rw [pyUpper_of_not_lower_range hc, pyUpper_of_not_lower_range hc]

theorem pyUpper_pyLower (c : Char) : pyUpper (pyLower c) = pyUpper c := by
  by_cases hc : 65 ≤ c.toNat ∧ c.toNat ≤ 90
  · have h2 : (pyLower c).toNat = c.toNat + 32 := by
      rw [pyLower_of_upper_range hc, toNat_ofNat_of_lt (by omega)]
    rw [pyUpper_of_lower_range (by omega), pyUpper_of_not_lower_range (by omega), h2]
    have he : c.toNat + 32 - 32 = c.toNat := by omega
    rw [he, Char.ofNat_toNat]
  · rw [pyLower_of_not_upper_range hc]

theorem pyUpper_caseVariant {c c' : Char} (h : caseVariant c c') :
    pyUpper c' = pyUpper c := by
  rcases h with rfl | ⟨_, _, rfl⟩ | ⟨_, _, rfl⟩
  · rfl
  · exact pyUpper_pyUpper c
  · exact pyUpper_pyLower c

/-! ## Checksum-level lemmas -/

theorem baseDigitOf_le_nine (n0 n1 n2 n3 n4 n5 n6 : Nat) :
    baseDigitOf n0 n1 n2 n3 n4 n5 n6 ≤ 9 := by
  simp only [baseDigitOf]
  split <;> omega

theorem validate_mk (l : List Char) : ValidateCIF (String.mk l) = validateChars l := rfl

theorem validateChars_nine (c0 b0 b1 b2 b3 b4 b5 b6 c8 : Char)
    (h : pyStrIsDigit [b0, b1, b2, b3, b4, b5, b6] = true) :
    validateChars [c0, b0, b1, b2, b3, b4, b5, b6, c8] =
      (if pyUpper c0 = 'A' ∨ pyUpper c0 = 'B' ∨ pyUpper c0 = 'E' ∨ pyUpper c0 = 'H' then
        decide (pyUpper c8 = Nat.digitChar (baseDigitOf (pyInt b0) (pyInt b1) (pyInt b2)
          (pyInt b3) (pyInt b4) (pyInt b5) (pyInt b6)))
      else if pyUpper c0 = 'K' ∨ pyUpper c0 = 'P' ∨ pyUpper c0 = 'Q' ∨ pyUpper c0 = 'S' then
        decide (some (pyUpper c8) = kpqsMapping (baseDigitOf (pyInt b0) (pyInt b1) (pyInt b2)
          (pyInt b3) (pyInt b4) (pyInt b5) (pyInt b6)))
      else false) := by
  simp only [validateChars]
  rw [if_pos h]

theorem pyStrIsDigit_seven_iff (b0 b1 b2 b3 b4 b5 b6 : Char) :
    pyStrIsDigit [b0, b1, b2, b3, b4, b5, b6] = true ↔
      ∀ b ∈ [b0, b1, b2, b3, b4, b5, b6], pyIsDigit b = true := by
  constructor
  · intro h b hb
    have hall : List.all [b0, b1, b2, b3, b4, b5, b6] pyIsDigit = true := by
      simpa [pyStrIsDigit] using h
    exact List.all_eq_true.mp hall b hb
  · intro h
    have hall := List.all_eq_true.mpr h
    simp [pyStrIsDigit, hall]

/-! ## Claims -/

/-- C1: for every 9-character string whose character 0 (uppercased) is
one of A, B, E, H and whose characters 1-7 are all decimal digits,
`ValidateCIF` returns true iff character 8 equals the decimal-digit
character of the base digit computed by the even/odd checksum; in
particular `ValidateCIF "A58818501" = true`, and a code constructed
with the derived control character always validates. -/
theorem claim1_abeh_control (c0 b0 b1 b2 b3 b4 b5 b6 c8 : Char)
    (hl : pyUpper c0 = 'A' ∨ pyUpper c0 = 'B' ∨ pyUpper c0 = 'E' ∨ pyUpper c0 = 'H')
    (h0 : asciiDigit b0 = true) (h1 : asciiDigit b1 = true) (h2 : asciiDigit b2 = true)
    (h3 : asciiDigit b3 = true) (h4 : asciiDigit b4 = true) (h5 : asciiDigit b5 = true)
    (h6 : asciiDigit b6 = true) :
    (ValidateCIF (String.mk [c0, b0, b1, b2, b3, b4, b5, b6, c8]) = true ↔
      c8 = Nat.digitChar (baseDigitOf (pyInt b0) (pyInt b1) (pyInt b2) (pyInt b3)
        (pyInt b4) (pyInt b5) (pyInt b6))) ∧
    ValidateCIF "A58818501" = true ∧
    ValidateCIF (String.mk [c0, b0, b1, b2, b3, b4, b5, b6,
      Nat.digitChar (baseDigitOf (pyInt b0) (pyInt b1) (pyInt b2) (pyInt b3)
        (pyInt b4) (pyInt b5) (pyInt b6))]) = true := by
  have hd : pyStrIsDigit [b0, b1, b2, b3, b4, b5, b6] = true :=
    (pyStrIsDigit_seven_iff b0 b1 b2 b3 b4 b5 b6).mpr (by
      intro b hb
      simp only [List.mem_cons, List.not_mem_nil, or_false] at hb
      rcases hb with rfl | rfl | rfl | rfl | rfl | rfl | rfl <;>
        exact asciiDigit_pyIsDigit (by assumption))
  have hbase := baseDigitOf_le_nine (pyInt b0) (pyInt b1) (pyInt b2) (pyInt b3)
    (pyInt b4) (pyInt b5) (pyInt b6)
  have hmain : ∀ c : Char,
      (ValidateCIF (String.mk [c0, b0, b1, b2, b3, b4, b5, b6, c]) = true ↔
        c = Nat.digitChar (baseDigitOf (pyInt b0) (pyInt b1) (pyInt b2) (pyInt b3)
          (pyInt b4) (pyInt b5) (pyInt b6))) := by
    intro c
    rw [validate_mk, validateChars_nine c0 b0 b1 b2 b3 b4 b5 b6 c hd, if_pos hl,
      decide_eq_true_eq]
    exact pyUpper_eq_digitChar_iff hbase
  exact ⟨hmain c8, by decide, (hmain _).mpr rfl⟩

/-- C1 witness: the characterization instantiated on the canonical
example A58818501. -/
theorem claim1_witness :
    ValidateCIF (String.mk ['A', '5', '8', '8', '1', '8', '5', '0', '1']) = true := by
  have h := claim1_abeh_control 'A' '5' '8' '8' '1' '8' '5' '0' '1' (by decide)
    (by decide) (by decide) (by decide) (by decide) (by decide) (by decide) (by decide)
  exact h.1.mpr (by decide)

/-- C2: for every 9-character string whose character 0 (uppercased) is
one of K, P, Q, S and whose characters 1-7 are all decimal digits,
`ValidateCIF` returns true iff character 8 (uppercased) equals the
letter assigned to the base digit by the fixed table
0 J, 1 A, 2 B, 3 C, 4 D, 5 E, 6 F, 7 G, 8 H, 9 I; in particular
`ValidateCIF "S1234567A" = false`. -/
theorem claim2_kpqs_control (c0 b0 b1 b2 b3 b4 b5 b6 c8 : Char)
    (hl : pyUpper c0 = 'K' ∨ pyUpper c0 = 'P' ∨ pyUpper c0 = 'Q' ∨ pyUpper c0 = 'S')
    (h0 : asciiDigit b0 = true) (h1 : asciiDigit b1 = true) (h2 : asciiDigit b2 = true)
    (h3 : asciiDigit b3 = true) (h4 : asciiDigit b4 = true) (h5 : asciiDigit b5 = true)
    (h6 : asciiDigit b6 = true) :
    (ValidateCIF (String.mk [c0, b0, b1, b2, b3, b4, b5, b6, c8]) = true ↔
      kpqsMapping (baseDigitOf (pyInt b0) (pyInt b1) (pyInt b2) (pyInt b3)
        (pyInt b4) (pyInt b5) (pyInt b6)) = some (pyUpper c8)) ∧
    ValidateCIF "S1234567A" = false := by
  have hd : pyStrIsDigit [b0, b1, b2, b3, b4, b5, b6] = true :=
    (pyStrIsDigit_seven_iff b0 b1 b2 b3 b4 b5 b6).mpr (by
      intro b hb
      simp only [List.mem_cons, List.not_mem_nil, or_false] at hb
      rcases hb with rfl | rfl | rfl | rfl | rfl | rfl | rfl <;>
        exact asciiDigit_pyIsDigit (by assumption))
  have hnA : ¬(pyUpper c0 = 'A' ∨ pyUpper c0 = 'B' ∨ pyUpper c0 = 'E' ∨ pyUpper c0 = 'H') := by
    rcases hl with h | h | h | h <;> simp [h]
  constructor
  · rw [validate_mk, validateChars_nine c0 b0 b1 b2 b3 b4 b5 b6 c8 hd, if_neg hnA,
      if_pos hl, decide_eq_true_eq]
    exact eq_comm
  · decide

/-- C2 witness: the characterization instantiated on the known
negative example S1234567A, whose table letter is D, not A. -/
theorem claim2_witness :
    ValidateCIF (String.mk ['S', '1', '2', '3', '4', '5', '6', '7', 'A']) = false := by
  have h := claim2_kpqs_control 'S' '1' '2' '3' '4' '5' '6' '7' 'A' (by decide)
    (by decide) (by decide) (by decide) (by decide) (by decide) (by decide) (by decide)
  cases hv : ValidateCIF (String.mk ['S', '1', '2', '3', '4', '5', '6', '7', 'A']) with
  | false => rfl
  | true => exact absurd (h.1.mp hv) (by decide)

/-- C7: a 9-character string with an all-digit body whose character 0
(case-insensitively) is not one of A, B, E, H, K, P, Q, S — including a
digit in that position or any other letter — is rejected. -/
theorem claim7_other_letters (c0 b0 b1 b2 b3 b4 b5 b6 c8 : Char)
    (h0 : asciiDigit b0 = true) (h1 : asciiDigit b1 = true) (h2 : asciiDigit b2 = true)
    (h3 : asciiDigit b3 = true) (h4 : asciiDigit b4 = true) (h5 : asciiDigit b5 = true)
    (h6 : asciiDigit b6 = true)
    (hl : ¬(pyUpper c0 = 'A' ∨ pyUpper c0 = 'B' ∨ pyUpper c0 = 'E' ∨ pyUpper c0 = 'H' ∨
      pyUpper c0 = 'K' ∨ pyUpper c0 = 'P' ∨ pyUpper c0 = 'Q' ∨ pyUpper c0 = 'S')) :
    ValidateCIF (String.mk [c0, b0, b1, b2, b3, b4, b5, b6, c8]) = false := by
  have hd : pyStrIsDigit [b0, b1, b2, b3, b4, b5, b6] = true :=
    (pyStrIsDigit_seven_iff b0 b1 b2 b3 b4 b5 b6).mpr (by
      intro b hb
      simp only [List.mem_cons, List.not_mem_nil, or_false] at hb
      rcases hb with rfl | rfl | rfl | rfl | rfl | rfl | rfl <;>
        exact asciiDigit_pyIsDigit (by assumption))
  have hn1 : ¬(pyUpper c0 = 'A' ∨ pyUpper c0 = 'B' ∨ pyUpper c0 = 'E' ∨ pyUpper c0 = 'H') :=
    fun h => hl (by tauto)
  have hn2 : ¬(pyUpper c0 = 'K' ∨ pyUpper c0 = 'P' ∨ pyUpper c0 = 'Q' ∨ pyUpper c0 = 'S') :=
    fun h => hl (by tauto)
  rw [validate_mk, validateChars_nine c0 b0 b1 b2 b3 b4 b5 b6 c8 hd, if_neg hn1, if_neg hn2]

/-- C7 witness: the letter X (not in either organization set) with an
all-digit body is rejected. -/
theorem claim7_witness :
    ValidateCIF (String.mk ['X', '1', '2', '3', '4', '5', '6', '7', '0']) = false :=
  claim7_other_letters 'X' '1' '2' '3' '4' '5' '6' '7' '0' (by decide) (by decide)
    (by decide) (by decide) (by decide) (by decide) (by decide) (by decide)

/-- C6: `ValidateCIF` is case-insensitive on position 0 and position 8:
replacing the character at position 0 and/or position 8 of a
9-character string by its opposite-case letter equivalent yields the
same boolean result. -/
theorem claim6_case_insensitive (c0 b0 b1 b2 b3 b4 b5 b6 c8 c0' c8' : Char)
    (hv0 : caseVariant c0 c0') (hv8 : caseVariant c8 c8') :
    ValidateCIF (String.mk [c0', b0, b1, b2, b3, b4, b5, b6, c8']) =
      ValidateCIF (String.mk [c0, b0, b1, b2, b3, b4, b5, b6, c8]) := by
  have e0 := pyUpper_caseVariant hv0
  have e8 := pyUpper_caseVariant hv8
  rw [validate_mk, validate_mk]
  simp only [validateChars]
  rw [e0, e8]

/-- C6 witness: lowercasing both the organization letter and the
control letter of s1234567a leaves the result unchanged. -/
theorem claim6_witness :
    ValidateCIF (String.mk ['s', '1', '2', '3', '4', '5', '6', '7', 'a']) =
      ValidateCIF (String.mk ['S', '1', '2', '3', '4', '5', '6', '7', 'A']) :=
  claim6_case_insensitive 'S' '1' '2' '3' '4' '5' '6' '7' 'A' 's' 'a'
    (by decide) (by decide)

/-- C10: for an organization letter in A, B, E, H, K, P, Q, S and any
all-digit body, there is exactly one case-normalized control character
accepted, and any two accepted control characters agree up to case. -/
theorem claim10_unique_control (c0 b0 b1 b2 b3 b4 b5 b6 : Char)
    (hl : pyUpper c0 = 'A' ∨ pyUpper c0 = 'B' ∨ pyUpper c0 = 'E' ∨ pyUpper c0 = 'H' ∨
      pyUpper c0 = 'K' ∨ pyUpper c0 = 'P' ∨ pyUpper c0 = 'Q' ∨ pyUpper c0 = 'S')
    (h0 : asciiDigit b0 = true) (h1 : asciiDigit b1 = true) (h2 : asciiDigit b2 = true)
    (h3 : asciiDigit b3 = true) (h4 : asciiDigit b4 = true) (h5 : asciiDigit b5 = true)
    (h6 : asciiDigit b6 = true) :
    (∃! c : Char, pyUpper c = c ∧
      ValidateCIF (String.mk [c0, b0, b1, b2, b3, b4, b5, b6, c]) = true) ∧
    ∀ c c', ValidateCIF (String.mk [c0, b0, b1, b2, b3, b4, b5, b6, c]) = true →
      ValidateCIF (String.mk [c0, b0, b1, b2, b3, b4, b5, b6, c']) = true →
      pyUpper c = pyUpper c' := by
  have hd : pyStrIsDigit [b0, b1, b2, b3, b4, b5, b6] = true :=
    (pyStrIsDigit_seven_iff b0 b1 b2 b3 b4 b5 b6).mpr (by
      intro b hb
      simp only [List.mem_cons, List.not_mem_nil, or_false] at hb
      rcases hb with rfl | rfl | rfl | rfl | rfl | rfl | rfl <;>
        exact asciiDigit_pyIsDigit (by assumption))
  have hbase := baseDigitOf_le_nine (pyInt b0) (pyInt b1) (pyInt b2) (pyInt b3)
    (pyInt b4) (pyInt b5) (pyInt b6)
  by_cases hA : pyUpper c0 = 'A' ∨ pyUpper c0 = 'B' ∨ pyUpper c0 = 'E' ∨ pyUpper c0 = 'H'
  · have hval : ∀ c : Char,
        (ValidateCIF (String.mk [c0, b0, b1, b2, b3, b4, b5, b6, c]) = true ↔
          pyUpper c = Nat.digitChar (baseDigitOf (pyInt b0) (pyInt b1) (pyInt b2)
            (pyInt b3) (pyInt b4) (pyInt b5) (pyInt b6))) := by
      intro c
      rw [validate_mk, validateChars_nine c0 b0 b1 b2 b3 b4 b5 b6 c hd, if_pos hA,
        decide_eq_true_eq]
    have hfix := pyUpper_digitChar hbase
    constructor
    · refine ⟨Nat.digitChar _, ⟨hfix, (hval _).mpr hfix⟩, ?_⟩
      rintro c ⟨hcfix, hc⟩
      rw [← hcfix]
      exact (hval c).mp hc
    · intro c c' hc hc'
      rw [(hval c).mp hc, (hval c').mp hc']
  · have hK : pyUpper c0 = 'K' ∨ pyUpper c0 = 'P' ∨ pyUpper c0 = 'Q' ∨ pyUpper c0 = 'S' := by
      rcases hl with h | h | h | h | h | h | h | h
      · exact absurd (Or.inl h) hA
      · exact absurd (Or.inr (Or.inl h)) hA
      · exact absurd (Or.inr (Or.inr (Or.inl h))) hA
      · exact absurd (Or.inr (Or.inr (Or.inr h))) hA
      · exact Or.inl h
      · exact Or.inr (Or.inl h)
      · exact Or.inr (Or.inr (Or.inl h))
      · exact Or.inr (Or.inr (Or.inr h))
    obtain ⟨L, hmap, hLfix⟩ : ∃ L : Char,
        kpqsMapping (baseDigitOf (pyInt b0) (pyInt b1) (pyInt b2) (pyInt b3)
          (pyInt b4) (pyInt b5) (pyInt b6)) = some L ∧ pyUpper L = L := by
      set m := baseDigitOf (pyInt b0) (pyInt b1) (pyInt b2) (pyInt b3)
        (pyInt b4) (pyInt b5) (pyInt b6) with hm
      clear_value m
      interval_cases m <;> exact ⟨_, rfl, by decide⟩
    have hval : ∀ c : Char,
        (ValidateCIF (String.mk [c0, b0, b1, b2, b3, b4, b5, b6, c]) = true ↔
          pyUpper c = L) := by
      intro c
      rw [validate_mk, validateChars_nine c0 b0 b1 b2 b3 b4 b5 b6 c hd, if_neg hA,
        if_pos hK, decide_eq_true_eq, hmap]
      exact ⟨fun h => (Option.some_inj.mp h.symm).symm, fun h => by rw [h]⟩
    constructor
    · refine ⟨L, ⟨hLfix, (hval _).mpr hLfix⟩, ?_⟩
      rintro c ⟨hcfix, hc⟩
      rw [← hcfix]
      exact (hval c).mp hc
    · intro c c' hc hc'
      rw [(hval c).mp hc, (hval c').mp hc']

/-- C10 witness: for the first eight characters A5881850 there is
exactly one case-normalized control character that validates. -/
theorem claim10_witness :
    ∃! c : Char, pyUpper c = c ∧
      ValidateCIF (String.mk ['A', '5', '8', '8', '1', '8', '5', '0', c]) = true :=
  (claim10_unique_control 'A' '5' '8' '8' '1' '8' '5' '0' (by decide) (by decide)
    (by decide) (by decide) (by decide) (by decide) (by decide) (by decide)).1

/-- C4 (code bug): the claim says a 9-character string whose
characters 1-7 are not all decimal digits is rejected with false, but
on A²2345671 the code raises instead of returning: the superscript two
is not a decimal digit (`asciiDigit` is false and it carries no
decimal value), yet it passes the `str.isdigit` guard, so the guarded
`int(·)` conversion is reached and raises `ValueError` — the fallible
embedding of the validator returns no boolean on that input. -/
theorem claim4_guard_conversion_mismatch :
    asciiDigit '²' = false ∧
    pyIsDigit '²' = true ∧
    pyIntE '²' = none ∧
    ValidateCIFE (String.mk ['A', '²', '2', '3', '4', '5', '6', '7', '1']) = none := by
  decide

/-- C8 (code bug): the claim says the validator never raises and
always returns a boolean on every string input, but on B¹2345678 the
code raises: the superscript one passes the `str.isdigit` guard while
`int(·)` raises `ValueError` on it, so the fallible embedding of the
validator returns no boolean — the guard does not make the conversions
safe. -/
theorem claim8_raises_on_digit_without_value :
    pyIsDigit '¹' = true ∧
    pyIntE '¹' = none ∧
    ValidateCIFE (String.mk ['B', '¹', '2', '3', '4', '5', '6', '7', '8']) = none := by
  decide

/-! ## Loader claims -/

/-- C3 counterexample: on a path that resolves to a file that exists
but is not readable, `open` raises `PermissionError`, which the
source's `except FileNotFoundError` clause does not catch, so the
loader does not surface the typed file-access failure (the
`EnterpriseManagementException` with message "Wrong file or file
path"): the untyped `PermissionError` propagates instead. -/
theorem claim3_counterexample :
    ReadProductCodeFromJSON LoadInput.unreadable =
      Except.error (LoadError.uncaught "PermissionError") ∧
    ReadProductCodeFromJSON LoadInput.unreadable ≠
      Except.error (LoadError.enterpriseManagementException "Wrong file or file path") := by
  refine ⟨rfl, ?_⟩
  intro h
  simp [ReadProductCodeFromJSON] at h

/-- C3 (amended): the loader fails with exactly one of four
distinguishable failures determined by its trigger — the typed
file-access failure when the path does not resolve to an existing
file (`FileNotFoundError`), the malformed-JSON failure when the
content is not syntactically valid JSON, the missing-field failure
when the parsed object lacks one of the keys cif, phone,
enterprise_name, and the invalid-CIF failure when all fields are
present but the CIF fails validation — with four pairwise distinct
messages; a file that exists but is not readable instead propagates
the underlying `PermissionError` untyped. -/
theorem claim3_error_taxonomy :
    ReadProductCodeFromJSON LoadInput.fileNotFound =
      Except.error (LoadError.enterpriseManagementException "Wrong file or file path") ∧
    ReadProductCodeFromJSON LoadInput.badJson =
      Except.error (LoadError.enterpriseManagementException "Wrong JSON Format") ∧
    (∀ data : List (String × String),
      data.lookup "cif" = none ∨ data.lookup "phone" = none ∨
        data.lookup "enterprise_name" = none →
      ReadProductCodeFromJSON (LoadInput.parsed data) =
        Except.error (LoadError.enterpriseManagementException "Invalid JSON Key")) ∧
    (∀ data c p n, data.lookup "cif" = some c → data.lookup "phone" = some p →
      data.lookup "enterprise_name" = some n → ValidateCIF c = false →
      ReadProductCodeFromJSON (LoadInput.parsed data) =
        Except.error (LoadError.enterpriseManagementException "Invalid CIF format")) ∧
    ReadProductCodeFromJSON LoadInput.unreadable =
      Except.error (LoadError.uncaught "PermissionError") ∧
    (("Wrong file or file path" : String) ≠ "Wrong JSON Format" ∧
      ("Wrong file or file path" : String) ≠ "Invalid JSON Key" ∧
      ("Wrong file or file path" : String) ≠ "Invalid CIF format" ∧
      ("Wrong JSON Format" : String) ≠ "Invalid JSON Key" ∧
      ("Wrong JSON Format" : String) ≠ "Invalid CIF format" ∧
      ("Invalid JSON Key" : String) ≠ "Invalid CIF format") := by
  refine ⟨rfl, rfl, ?_, ?_, rfl, by decide⟩
  · intro data h
    rcases hc : data.lookup "cif" with _ | c
    · simp [ReadProductCodeFromJSON, hc]
    · rcases hp : data.lookup "phone" with _ | p
      · simp [ReadProductCodeFromJSON, hc, hp]
      · rcases hn : data.lookup "enterprise_name" with _ | nm
        · simp [ReadProductCodeFromJSON, hc, hp, hn]
        · rcases h with h | h | h
          · rw [h] at hc
            exact absurd hc (by simp)
          · rw [h] at hp
            exact absurd hp (by simp)
          · rw [h] at hn
            exact absurd hn (by simp)
  · intro data c p n hc hp hn hv
    simp [ReadProductCodeFromJSON, hc, hp, hn, hv]

/-- C3 witness: the missing-field and invalid-CIF triggers exercised
on concrete parsed documents. -/
theorem claim3_witness :
    ReadProductCodeFromJSON (LoadInput.parsed [("cif", "A58818501"), ("phone", "916624000")]) =
      Except.error (LoadError.enterpriseManagementException "Invalid JSON Key") ∧
    ReadProductCodeFromJSON (LoadInput.parsed
        [("cif", "A58818500"), ("phone", "916624000"), ("enterprise_name", "ACME")]) =
      Except.error (LoadError.enterpriseManagementException "Invalid CIF format") :=
  ⟨claim3_error_taxonomy.2.2.1 _ (by decide),
   claim3_error_taxonomy.2.2.2.1 _ "A58818500" "916624000" "ACME"
     (by decide) (by decide) (by decide) (by decide)⟩

/-- C5: the loader is atomic — for every input it either returns a
fully constructed record whose CIF validates, or fails with an error
value that carries no record; in particular a well-formed document
whose cif is S1234567A fails with the invalid-CIF
`EnterpriseManagementException` and the record constructed before
validation is not returned. -/
theorem claim5_atomic :
    (∀ fi, (∃ r, ReadProductCodeFromJSON fi = Except.ok r ∧
        ValidateCIF r.enterprise_cif = true) ∨
      ∃ e, ReadProductCodeFromJSON fi = Except.error e) ∧
    ∀ data p n, data.lookup "cif" = some "S1234567A" → data.lookup "phone" = some p →
      data.lookup "enterprise_name" = some n →
      ReadProductCodeFromJSON (LoadInput.parsed data) =
        Except.error (LoadError.enterpriseManagementException "Invalid CIF format") := by
  constructor
  · intro fi
    cases fi with
    | fileNotFound => exact Or.inr ⟨_, rfl⟩
    | unreadable => exact Or.inr ⟨_, rfl⟩
    | badJson => exact Or.inr ⟨_, rfl⟩
    | parsed data =>
      rcases hc : data.lookup "cif" with _ | c
      · exact Or.inr ⟨LoadError.enterpriseManagementException "Invalid JSON Key",
          by simp [ReadProductCodeFromJSON, hc]⟩
      · rcases hp : data.lookup "phone" with _ | p
        · exact Or.inr ⟨LoadError.enterpriseManagementException "Invalid JSON Key",
            by simp [ReadProductCodeFromJSON, hc, hp]⟩
        · rcases hn : data.lookup "enterprise_name" with _ | nm
          · exact Or.inr ⟨LoadError.enterpriseManagementException "Invalid JSON Key",
              by simp [ReadProductCodeFromJSON, hc, hp, hn]⟩
          · cases hv : ValidateCIF c with
            | true =>
              refine Or.inl ⟨EnterpriseRequest.mk c p nm, ?_, hv⟩
              simp [ReadProductCodeFromJSON, hc, hp, hn, hv]
            | false =>
              exact Or.inr ⟨LoadError.enterpriseManagementException "Invalid CIF format",
                by simp [ReadProductCodeFromJSON, hc, hp, hn, hv]⟩
  · intro data p n hc hp hn
    have hv : ValidateCIF "S1234567A" = false := by decide
    simp [ReadProductCodeFromJSON, hc, hp, hn, hv]

/-- C5 witness: the atomicity statement applied to a concrete
well-formed document whose cif is S1234567A. -/
theorem claim5_witness :
    ReadProductCodeFromJSON (LoadInput.parsed
        [("cif", "S1234567A"), ("phone", "916624001"), ("enterprise_name", "BadCorp")]) =
      Except.error (LoadError.enterpriseManagementException "Invalid CIF format") :=
  claim5_atomic.2 _ "916624001" "BadCorp" (by decide) (by decide) (by decide)

/-- C9: on success the returned record carries exactly the values of
the input JSON object — its enterprise_cif accessor returns the value
at key cif, phone_number the value at key phone, and enterprise_name
the value at key enterprise_name, unmodified. -/
theorem claim9_field_fidelity (data : List (String × String)) (r : EnterpriseRequest)
    (h : ReadProductCodeFromJSON (LoadInput.parsed data) = Except.ok r) :
    data.lookup "cif" = some r.enterprise_cif ∧
    data.lookup "phone" = some r.phone_number ∧
    data.lookup "enterprise_name" = some r.enterprise_name := by
  rcases hc : data.lookup "cif" with _ | c
  · simp [ReadProductCodeFromJSON, hc] at h
  · rcases hp : data.lookup "phone" with _ | p
    · simp [ReadProductCodeFromJSON, hc, hp] at h
    · rcases hn : data.lookup "enterprise_name" with _ | nm
      · simp [ReadProductCodeFromJSON, hc, hp, hn] at h
      · cases hv : ValidateCIF c with
        | false => simp [ReadProductCodeFromJSON, hc, hp, hn, hv] at h
        | true =>
          have hread : ReadProductCodeFromJSON (LoadInput.parsed data) =
              Except.ok (EnterpriseRequest.mk c p nm) := by
            simp [ReadProductCodeFromJSON, hc, hp, hn, hv]
          rw [hread] at h
          injection h with h2
          subst h2
          exact ⟨rfl, rfl, rfl⟩

/-- C9 witness: the field fidelity statement on a concrete successful
load. -/
theorem claim9_witness :
    ([("cif", "A58818501"), ("phone", "916624000"),
        ("enterprise_name", "UC3M Consulting")] : List (String × String)).lookup "cif" =
      some (EnterpriseRequest.mk "A58818501" "916624000" "UC3M Consulting").enterprise_cif ∧
    ([("cif", "A58818501"), ("phone", "916624000"),
        ("enterprise_name", "UC3M Consulting")] : List (String × String)).lookup "phone" =
      some (EnterpriseRequest.mk "A58818501" "916624000" "UC3M Consulting").phone_number ∧
    ([("cif", "A58818501"), ("phone", "916624000"),
        ("enterprise_name", "UC3M Consulting")] : List (String × String)).lookup "enterprise_name" =
      some (EnterpriseRequest.mk "A58818501" "916624000" "UC3M Consulting").enterprise_name :=
  claim9_field_fidelity _ _ (by rfl)
